import Mathlib

/-!
Shallow embedding of the OpenAI-compatible translation proxy in
`src/server.py` (Flask handlers `embeddings` and `chat_completions`).

Python JSON values are modelled by `PyVal`; Python truthiness by `truthy`;
`dict.get` by `dictGet` / `dictGetD`.  The external collaborators
(`tiktoken` decoding, `litellm.embedding`, `litellm.completion`) are
oracles passed as function parameters: a decoder `PyVal → Option String`
(`Option.none` models a raised exception) and providers returning
`Except String _` (`Except.error msg` models a raised exception whose
message is `msg`).  Each endpoint returns the HTTP result together with
the list of payloads sent downstream, so "no downstream call is made"
is the trace being `[]`.
-/

/-- A Python value as produced by parsing a JSON request body.
Floats carry a rational (we never compute with them; they are only
passed through). -/
inductive PyVal where
  | none
  | bool (b : Bool)
  | int (n : Int)
  | float (q : Rat)
  | str (s : String)
  | list (xs : List PyVal)
  | dict (kvs : List (String × PyVal))

/-- Python truthiness (`bool(v)`): `None`, `False`, `0`, `0.0`, `""`,
`[]`, `{}` are falsy, everything else truthy. -/
def truthy : PyVal → Bool
  | PyVal.none => false
  | PyVal.bool b => b
  | PyVal.int n => decide (n ≠ 0)
  | PyVal.float q => decide (q ≠ 0)
  | PyVal.str s => !s.isEmpty
  | PyVal.list xs => !xs.isEmpty
  | PyVal.dict kvs => !kvs.isEmpty

/-- `d.get(k)`: first binding of key `k`, if any. -/
def dictGet (d : List (String × PyVal)) (k : String) : Option PyVal :=
  match d with
  | [] => Option.none
  | (k2, v) :: rest => if k2 = k then some v else dictGet rest k

/-- `d.get(k, default)`. -/
def dictGetD (d : List (String × PyVal)) (k : String) (default : PyVal) : PyVal :=
  (dictGet d k).getD default

/-- `isinstance(v, list)`. -/
def isInstList : PyVal → Bool
  | PyVal.list _ => true
  | _ => false

/-- `isinstance(v, int)`.  In Python `bool` is a subclass of `int`,
so booleans count. -/
def isInstInt : PyVal → Bool
  | PyVal.int _ => true
  | PyVal.bool _ => true
  | _ => false

/-- `isinstance(v, dict)`. -/
def isDict : PyVal → Bool
  | PyVal.dict _ => true
  | _ => false

/-- server.py lines 44-50: `is_token_input = isinstance(input_data, list)
and input_data and isinstance(input_data[0], list) and input_data[0]
and isinstance(input_data[0][0], int)`.  The indexings `input_data[0]`
and `input_data[0][0]` are reached only after the truthiness conjuncts
guarantee the lists are non-empty. -/
def is_token_input (input_data : PyVal) : Bool :=
  isInstList input_data && truthy input_data &&
    (match input_data with
     | PyVal.list (x0 :: _) =>
         isInstList x0 && truthy x0 &&
           (match x0 with
            | PyVal.list (y0 :: _) => isInstInt y0
            | _ => false)
     | _ => false)

/-- The list comprehension
`[tokenizer.decode(token_list) for token_list in input_data]`: decodes
left to right, and a raised exception (`Option.none`) in any item makes
the whole comprehension raise. -/
def decodeList (decode : PyVal → Option String) : List PyVal → Option (List String)
  | [] => some []
  | x :: xs =>
    match decode x with
    | Option.none => Option.none
    | some s =>
      match decodeList decode xs with
      | Option.none => Option.none
      | some ss => some (s :: ss)

/-- The fixed downstream embedding model (server.py line 39). -/
def embeddingModel : String := "gemini/text-embedding-004"

/-- The fixed downstream chat model (server.py line 120). -/
def chatModel : String := "gemini/gemini-2.0-flash-lite"

/-- The relevant parts of a successful `litellm.embedding` response:
`data` stands for the list of `item.embedding` vectors (kept abstract
as `PyVal`), `usage` for `response.usage.model_dump()` when
`response.usage` is present. -/
structure EmbedResponse where
  data : List PyVal
  usage : Option PyVal

/-- One entry of `formatted_data` (server.py lines 83-86):
`{"object": "embedding", "embedding": emb, "index": i}`. -/
def formatEntry (p : Nat × PyVal) : PyVal :=
  PyVal.dict
    [("object", PyVal.str "embedding"),
     ("embedding", p.2),
     ("index", PyVal.int (Int.ofNat p.1))]

/-- server.py lines 76-102 after `decoded_texts` is fixed: the
`litellm.embedding` call, the response reshaping, and the generic
`except` clause converting a raised exception into HTTP 500. -/
def forwardEmbedding (provider : PyVal → Except String EmbedResponse)
    (decoded_texts : PyVal) : (Nat × PyVal) × List PyVal :=
  match provider decoded_texts with
  | Except.error msg =>
      ((500, PyVal.dict [("error", PyVal.str msg)]), [decoded_texts])
  | Except.ok resp =>
      let embs := resp.data
      let formatted_data := embs.enum.map formatEntry
      ((200, PyVal.dict
        [("object", PyVal.str "list"),
         ("model", PyVal.str embeddingModel),
         ("data", PyVal.list formatted_data),
         ("usage", resp.usage.getD (PyVal.dict []))]), [decoded_texts])

/-- server.py lines 28-102, handler of POST /embeddings, as a function
of the parsed JSON payload (a dict).  `decode` is the tiktoken decoding
oracle — it also absorbs a failure of
`tiktoken.encoding_for_model(...)` itself, since that call sits in the
same `try` block.  Returns `((status, body), downstream calls)`. -/
def embeddings (decode : PyVal → Option String)
    (provider : PyVal → Except String EmbedResponse)
    (payload : List (String × PyVal)) : (Nat × PyVal) × List PyVal :=
  let input_data := dictGetD payload "input" (PyVal.list [])
  if truthy input_data = false then
    ((400, PyVal.dict [("error", PyVal.str "Input text is required")]), [])
  else
    let decoded_texts :=
      if is_token_input input_data then
        match input_data with
        | PyVal.list xs =>
          match decodeList decode xs with
          | some ds => PyVal.list (ds.map PyVal.str)
          | Option.none => input_data  -- fallback: treat input as strings
        | _ => input_data  -- unreachable: is_token_input forces a list
      else input_data
    forwardEmbedding provider decoded_texts

/-- The valid roles (server.py line 135). -/
def valid_roles : List String := ["system", "user", "assistant", "tool"]

/-- `msg.get("role") in valid_roles` for one message dict.  A missing
role gives Python `None`, a non-string role compares unequal to every
string, so both yield `false`. -/
def msgRoleValid (m : PyVal) : Bool :=
  match m with
  | PyVal.dict kvs =>
    (match dictGet kvs "role" with
     | some (PyVal.str r) => valid_roles.contains r
     | _ => false)
  | _ => false

/-- server.py lines 126-158: the `litellm_params` dict built from the
optional parameters and the cleaned messages.  `max_tokens` is appended
only under `if max_tokens is not None` (line 157); a missing key and an
explicit JSON null both give Python `None`. -/
def litellmParams (payload : List (String × PyVal))
    (cleaned_messages : List PyVal) : List (String × PyVal) :=
  let temperature := dictGetD payload "temperature" (PyVal.float 1)
  let max_tokens := dictGetD payload "max_tokens" PyVal.none
  let top_p := dictGetD payload "top_p" (PyVal.float 1)
  let base :=
    [("model", PyVal.str chatModel),
     ("messages", PyVal.list cleaned_messages),
     ("temperature", temperature),
     ("top_p", top_p)]
  match max_tokens with
  | PyVal.none => base  -- `if max_tokens is not None` fails: key omitted
  | mt => base ++ [("max_tokens", mt)]

/-- server.py lines 107-189, handler of POST /chat/completions, as a
function of the parsed JSON payload.  `completion` is the
`litellm.completion` oracle.  Returns `((status, body), downstream
calls)`.  A non-list truthy `messages`, or a message that is not a
dict, raises inside the handler (`msg.get` on a non-dict) and is caught
by the outer `except` as HTTP 500; the exception text is not modelled
beyond its class name. -/
def chat_completions (completion : PyVal → Except String PyVal)
    (payload : List (String × PyVal)) : (Nat × PyVal) × List PyVal :=
  let messages := dictGetD payload "messages" PyVal.none
  if truthy messages = false then
    ((400, PyVal.dict [("error", PyVal.str "Messages are required")]), [])
  else
    match messages with
    | PyVal.list msgs =>
      if msgs.all isDict then
        let cleaned_messages := msgs.filter msgRoleValid
        if cleaned_messages.isEmpty then
          ((400, PyVal.dict
            [("error", PyVal.str
              "Valid messages with roles (system, user, assistant, tool) are required")]),
           [])
        else
          let litellm_params := litellmParams payload cleaned_messages
          if truthy (dictGetD payload "stream" (PyVal.bool false)) then
            ((501, PyVal.dict
              [("error", PyVal.str "Streaming is not yet implemented on this server")]),
             [])
          else
            match completion (PyVal.dict litellm_params) with
            | Except.error msg =>
                ((500, PyVal.dict [("error", PyVal.str msg)]), [PyVal.dict litellm_params])
            | Except.ok resp => ((200, resp), [PyVal.dict litellm_params])
      else
        ((500, PyVal.dict [("error", PyVal.str "AttributeError")]), [])
    | _ =>
      ((500, PyVal.dict [("error", PyVal.str "TypeError")]), [])

/-- The disambiguation condition the code actually implements, written
structurally: a non-empty list whose first element is a non-empty list
whose FIRST element is a Python int.  Later elements of the first inner
list, and all later elements of the outer list, are not inspected. -/
def firstOfFirstIsInt : PyVal → Bool
  | PyVal.list (PyVal.list (y0 :: _) :: _) => isInstInt y0
  | _ => false

/-- `isinstance`-free notion of a JSON integer (a Python `int` literal,
not a boolean), used to state the claim's disambiguation condition. -/
def isJsonInt : PyVal → Bool
  | PyVal.int _ => true
  | _ => false

/-- The disambiguation condition as the claim words it: a non-empty
sequence whose first element is itself a non-empty sequence of
integers. -/
def claimTokenCond : PyVal → Bool
  | PyVal.list (PyVal.list ys :: _) => !ys.isEmpty && ys.all isJsonInt
  | _ => false

/-- If decoding raises on some member, the whole comprehension
raises. -/
theorem decodeList_eq_none_of_mem (decode : PyVal → Option String)
    {xs : List PyVal} {x : PyVal} (hx : x ∈ xs)
    (hfail : decode x = Option.none) :
    decodeList decode xs = Option.none := by
  induction xs with
  | nil => cases hx
  | cons a l ih =>
    rcases List.mem_cons.mp hx with rfl | hmem
    · simp [decodeList, hfail]
    · simp only [decodeList, ih hmem]
      cases decode a <;> rfl

/-- Successful decoding yields one string per token sequence. -/
theorem decodeList_length (decode : PyVal → Option String) :
    ∀ {xs : List PyVal} {ds : List String},
      decodeList decode xs = some ds → ds.length = xs.length := by
  intro xs
  induction xs with
  | nil =>
    intro ds h
    simp only [decodeList, Option.some.injEq] at h
    simp [← h]
  | cons a l ih =>
    intro ds h
    simp only [decodeList] at h
    cases ha : decode a with
    | none => rw [ha] at h; cases h
    | some s =>
      rw [ha] at h
      cases hl : decodeList decode l with
      | none => rw [hl] at h; cases h
      | some ss =>
        rw [hl] at h
        cases h
        simp [ih hl]

/-- Whatever the provider answers, `forwardEmbedding` records exactly
one downstream call, carrying `decoded_texts`. -/
theorem forwardEmbedding_calls (provider : PyVal → Except String EmbedResponse)
    (v : PyVal) : (forwardEmbedding provider v).2 = [v] := by
  cases hp : provider v <;> simp [forwardEmbedding, hp]

/-- A token-classified input is a truthy (hence non-empty) list. -/
theorem is_token_input_truthy {v : PyVal} (h : is_token_input v = true) :
    truthy v = true := by
  unfold is_token_input at h
  exact (Bool.and_eq_true_iff.mp ((Bool.and_eq_true_iff.mp h).1)).2

/-- The params dict never holds a `max_tokens` key when the request
held none (or an explicit null). -/
theorem litellmParams_no_max_tokens (payload : List (String × PyVal))
    (cm : List PyVal) (h : dictGetD payload "max_tokens" PyVal.none = PyVal.none) :
    dictGet (litellmParams payload cm) "max_tokens" = Option.none := by
  simp [litellmParams, h, dictGet]

/-- A non-null `max_tokens` from the request is forwarded unchanged. -/
theorem litellmParams_max_tokens_forwarded (payload : List (String × PyVal))
    (cm : List PyVal) {v : PyVal}
    (h : dictGetD payload "max_tokens" PyVal.none = v) (hv : v ≠ PyVal.none) :
    dictGet (litellmParams payload cm) "max_tokens" = some v := by
  unfold litellmParams
  rw [h]
  cases v
  case none => exact absurd rfl hv
  all_goals simp [dictGet]

/-- The params dict always carries the cleaned messages. -/
theorem litellmParams_messages (payload : List (String × PyVal))
    (cm : List PyVal) :
    dictGet (litellmParams payload cm) "messages" = some (PyVal.list cm) := by
  unfold litellmParams
  cases dictGetD payload "max_tokens" PyVal.none <;> simp [dictGet]

/-- C5: a POST /embeddings request whose `input` field is missing or an
empty list is answered with HTTP 400 and body
`{"error": "Input text is required"}`, and no downstream embedding call
is made (the recorded call trace is empty). -/
theorem C5_missing_or_empty_input_rejected
    (decode : PyVal → Option String)
    (provider : PyVal → Except String EmbedResponse)
    (payload : List (String × PyVal))
    (h : dictGet payload "input" = Option.none ∨
         dictGet payload "input" = some (PyVal.list [])) :
    embeddings decode provider payload =
      ((400, PyVal.dict [("error", PyVal.str "Input text is required")]), []) := by
  rcases h with h | h <;> simp [embeddings, dictGetD, h, truthy]

/-- C5 witness: the empty payload (no `input` key) is rejected. -/
theorem C5_missing_or_empty_input_rejected_witness :
    dictGet ([] : List (String × PyVal)) "input" = Option.none ∧
    embeddings (fun _ => Option.none)
      (fun v => Except.ok { data := [v], usage := Option.none }) [] =
      ((400, PyVal.dict [("error", PyVal.str "Input text is required")]), []) :=
  ⟨rfl, C5_missing_or_empty_input_rejected _ _ _ (Or.inl rfl)⟩

/-- C9: a POST /chat/completions request whose `messages` field is
present but an empty list gets HTTP 400 with
`{"error": "Messages are required"}` — the same error as a missing
`messages` field, not the invalid-roles error — and no downstream call
is made. -/
theorem C9_empty_messages_list_rejected
    (completion : PyVal → Except String PyVal)
    (payload : List (String × PyVal))
    (hm : dictGet payload "messages" = some (PyVal.list [])) :
    chat_completions completion payload =
      ((400, PyVal.dict [("error", PyVal.str "Messages are required")]), []) := by
  simp [chat_completions, dictGetD, hm, truthy]

/-- C9 witness: the payload `{"messages": []}`. -/
theorem C9_empty_messages_list_rejected_witness :
    dictGet [("messages", PyVal.list [])] "messages" = some (PyVal.list []) ∧
    chat_completions (fun v => Except.ok v) [("messages", PyVal.list [])] =
      ((400, PyVal.dict [("error", PyVal.str "Messages are required")]), []) :=
  ⟨rfl, C9_empty_messages_list_rejected _ _ rfl⟩

/-- C6: a POST /chat/completions request with `stream=true` and
otherwise valid messages (a non-empty list of dicts, at least one with
a valid role) is answered HTTP 501 with
`{"error": "Streaming is not yet implemented on this server"}`, and no
downstream chat-completion call is made (empty call trace). -/
theorem C6_streaming_rejected_before_downstream
    (completion : PyVal → Except String PyVal)
    (payload : List (String × PyVal)) (msgs : List PyVal)
    (hm : dictGet payload "messages" = some (PyVal.list msgs))
    (hdicts : msgs.all isDict = true)
    (hclean : (msgs.filter msgRoleValid).isEmpty = false)
    (hs : dictGet payload "stream" = some (PyVal.bool true)) :
    chat_completions completion payload =
      ((501, PyVal.dict
        [("error", PyVal.str "Streaming is not yet implemented on this server")]),
       []) := by
  have hne : msgs.isEmpty = false := by
    cases msgs with
    | nil => simp [List.filter_nil] at hclean
    | cons a l => rfl
  simp [chat_completions, dictGetD, hm, hdicts, hclean, hs, truthy, hne]

/-- C6 witness: one valid user message plus `stream=true`. -/
theorem C6_streaming_rejected_before_downstream_witness :
    dictGet
        [("messages", PyVal.list [PyVal.dict [("role", PyVal.str "user"), ("content", PyVal.str "hi")]]),
         ("stream", PyVal.bool true)] "messages" =
      some (PyVal.list [PyVal.dict [("role", PyVal.str "user"), ("content", PyVal.str "hi")]]) ∧
    chat_completions (fun v => Except.ok v)
      [("messages", PyVal.list [PyVal.dict [("role", PyVal.str "user"), ("content", PyVal.str "hi")]]),
       ("stream", PyVal.bool true)] =
      ((501, PyVal.dict
        [("error", PyVal.str "Streaming is not yet implemented on this server")]),
       []) :=
  ⟨rfl, C6_streaming_rejected_before_downstream _ _ _ rfl rfl rfl rfl⟩

/-- C10: with `stream=true` and a non-empty `messages` list of dicts
none of which carries a valid role, the role-validation 400 wins over
the streaming 501: role filtering is checked first. -/
theorem C10_role_validation_precedes_streaming
    (completion : PyVal → Except String PyVal)
    (payload : List (String × PyVal)) (msgs : List PyVal)
    (hm : dictGet payload "messages" = some (PyVal.list msgs))
    (hne : msgs.isEmpty = false)
    (hdicts : msgs.all isDict = true)
    (hroles : (msgs.filter msgRoleValid).isEmpty = true)
    (_hs : dictGet payload "stream" = some (PyVal.bool true)) :
    chat_completions completion payload =
      ((400, PyVal.dict
        [("error", PyVal.str
          "Valid messages with roles (system, user, assistant, tool) are required")]),
       []) := by
  simp [chat_completions, dictGetD, hm, hdicts, hroles, truthy, hne]

/-- C10 witness: one bogus-role message plus `stream=true`. -/
theorem C10_role_validation_precedes_streaming_witness :
    dictGet
        [("messages", PyVal.list [PyVal.dict [("role", PyVal.str "bogus"), ("content", PyVal.str "x")]]),
         ("stream", PyVal.bool true)] "stream" = some (PyVal.bool true) ∧
    chat_completions (fun v => Except.ok v)
      [("messages", PyVal.list [PyVal.dict [("role", PyVal.str "bogus"), ("content", PyVal.str "x")]]),
       ("stream", PyVal.bool true)] =
      ((400, PyVal.dict
        [("error", PyVal.str
          "Valid messages with roles (system, user, assistant, tool) are required")]),
       []) :=
  ⟨rfl, C10_role_validation_precedes_streaming _ _ _ rfl rfl rfl rfl rfl⟩

/-- C1 counterexample: for the body `{"input": [[1, "a"]]}` the claim
says the input must be treated as raw strings (its first element is a
list starting with an integer but containing a non-integer), yet the
code classifies it as token input, attempts decoding, and — whenever
the decoder succeeds on `[1, "a"]` — forwards the decoded string
`"decoded"` downstream instead of the raw input. -/
theorem C1_counterexample :
    claimTokenCond (PyVal.list [PyVal.list [PyVal.int 1, PyVal.str "a"]]) = false ∧
    is_token_input (PyVal.list [PyVal.list [PyVal.int 1, PyVal.str "a"]]) = true ∧
    (embeddings (fun _ => some "decoded")
        (fun v => Except.ok { data := [v], usage := Option.none })
        [("input", PyVal.list [PyVal.list [PyVal.int 1, PyVal.str "a"]])]).2 =
      [PyVal.list [PyVal.str "decoded"]] :=
  ⟨rfl, rfl, rfl⟩

/-- C1 (amended): input is treated as token-id sequences iff it is a
non-empty list whose first element is a non-empty list whose FIRST
element is a Python int (later elements are never inspected); in every
other case the input value is forwarded to the provider unchanged, as
raw strings. -/
theorem C1_token_disambiguation (v : PyVal)
    (decode : PyVal → Option String)
    (provider : PyVal → Except String EmbedResponse)
    (rest : List (String × PyVal)) (hv : truthy v = true) :
    is_token_input v = firstOfFirstIsInt v ∧
    (is_token_input v = false →
      embeddings decode provider (("input", v) :: rest) =
        forwardEmbedding provider v) := by
  constructor
  · cases v with
    | list xs =>
      cases xs with
      | nil => rfl
      | cons x0 t =>
        cases x0 with
        | list ys =>
          cases ys with
          | nil => rfl
          | cons y0 t2 => rfl
        | none => rfl
        | bool b => rfl
        | int n => rfl
        | float q => rfl
        | str s => rfl
        | dict kvs => rfl
    | none => rfl
    | bool b => rfl
    | int n => rfl
    | float q => rfl
    | str s => rfl
    | dict kvs => rfl
  · intro htok
    simp [embeddings, dictGetD, dictGet, hv, htok]

/-- C1 witness: the string-array input `["hello"]` satisfies the
hypotheses (truthy, not token-classified) and is forwarded raw. -/
theorem C1_token_disambiguation_witness :
    truthy (PyVal.list [PyVal.str "hello"]) = true ∧
    (is_token_input (PyVal.list [PyVal.str "hello"]) =
        firstOfFirstIsInt (PyVal.list [PyVal.str "hello"]) ∧
     (is_token_input (PyVal.list [PyVal.str "hello"]) = false →
       embeddings (fun _ => Option.none)
           (fun v => Except.ok { data := [v], usage := Option.none })
           [("input", PyVal.list [PyVal.str "hello"])] =
         forwardEmbedding (fun v => Except.ok { data := [v], usage := Option.none })
           (PyVal.list [PyVal.str "hello"]))) :=
  ⟨rfl, C1_token_disambiguation _ _ _ _ rfl⟩

/-- C2: when the input is token-classified and every token sequence
decodes successfully, the endpoint's answer (response and downstream
trace alike) is exactly the answer to the request carrying the decoded
strings as `input`. -/
theorem C2_decoded_tokens_equal_strings
    (decode : PyVal → Option String)
    (provider : PyVal → Except String EmbedResponse)
    (xs : List PyVal) (ds : List String) (rest : List (String × PyVal))
    (htok : is_token_input (PyVal.list xs) = true)
    (hdec : decodeList decode xs = some ds) :
    embeddings decode provider (("input", PyVal.list xs) :: rest) =
      embeddings decode provider
        (("input", PyVal.list (ds.map PyVal.str)) :: rest) := by
  have h1 : truthy (PyVal.list xs) = true := is_token_input_truthy htok
  have hxs : xs ≠ [] := by
    intro h
    rw [h] at h1
    simp [truthy] at h1
  have hds : ds ≠ [] := by
    intro h
    apply hxs
    have hlen := decodeList_length decode hdec
    rw [h] at hlen
    exact List.length_eq_zero.mp hlen.symm
  have h2 : truthy (PyVal.list (ds.map PyVal.str)) = true := by
    cases ds with
    | nil => exact absurd rfl hds
    | cons d t => rfl
  have h3 : is_token_input (PyVal.list (ds.map PyVal.str)) = false := by
    cases ds with
    | nil => exact absurd rfl hds
    | cons d t => rfl
  simp [embeddings, dictGetD, dictGet, h1, h2, h3, htok, hdec]

/-- C2 witness: the token input `[[1]]` with a decoder sending it to
`"t"` answers exactly like the string input `["t"]`. -/
theorem C2_decoded_tokens_equal_strings_witness :
    is_token_input (PyVal.list [PyVal.list [PyVal.int 1]]) = true ∧
    decodeList (fun _ => some "t") [PyVal.list [PyVal.int 1]] = some ["t"] ∧
    embeddings (fun _ => some "t")
        (fun v => Except.ok { data := [v], usage := Option.none })
        [("input", PyVal.list [PyVal.list [PyVal.int 1]])] =
      embeddings (fun _ => some "t")
        (fun v => Except.ok { data := [v], usage := Option.none })
        [("input", PyVal.list [PyVal.str "t"])] :=
  ⟨rfl, rfl,
   C2_decoded_tokens_equal_strings (fun _ => some "t")
     (fun v => Except.ok { data := [v], usage := Option.none })
     [PyVal.list [PyVal.int 1]] ["t"] [] rfl rfl⟩

/-- C3: when the input is token-classified and the decoder raises on
any member of the batch, the endpoint behaves exactly as if the whole
batch were raw strings: the full, unchanged input is the one downstream
call, and the outcome is whatever the provider answers on it — the
request does not fail because of the decode error. -/
theorem C3_decode_failure_falls_back_to_raw
    (decode : PyVal → Option String)
    (provider : PyVal → Except String EmbedResponse)
    (xs : List PyVal) (x : PyVal) (rest : List (String × PyVal))
    (htok : is_token_input (PyVal.list xs) = true)
    (hx : x ∈ xs) (hfail : decode x = Option.none) :
    embeddings decode provider (("input", PyVal.list xs) :: rest) =
      forwardEmbedding provider (PyVal.list xs) ∧
    (embeddings decode provider (("input", PyVal.list xs) :: rest)).2 =
      [PyVal.list xs] := by
  have h1 : truthy (PyVal.list xs) = true := is_token_input_truthy htok
  have hnone : decodeList decode xs = Option.none :=
    decodeList_eq_none_of_mem decode hx hfail
  have hmain : embeddings decode provider (("input", PyVal.list xs) :: rest) =
      forwardEmbedding provider (PyVal.list xs) := by
    simp [embeddings, dictGetD, dictGet, h1, htok, hnone]
  exact ⟨hmain, by rw [hmain]; exact forwardEmbedding_calls provider _⟩

/-- C3 witness: the token input `[[1], [2]]` with an always-raising
decoder is forwarded unchanged even though the provider then fails. -/
theorem C3_decode_failure_falls_back_to_raw_witness :
    is_token_input (PyVal.list [PyVal.list [PyVal.int 1], PyVal.list [PyVal.int 2]]) = true ∧
    PyVal.list [PyVal.int 2] ∈ [PyVal.list [PyVal.int 1], PyVal.list [PyVal.int 2]] ∧
    ((fun _ => Option.none) : PyVal → Option String) (PyVal.list [PyVal.int 2]) = Option.none ∧
    (embeddings (fun _ => Option.none)
        ((fun _ => Except.error "provider down") : PyVal → Except String EmbedResponse)
        [("input", PyVal.list [PyVal.list [PyVal.int 1], PyVal.list [PyVal.int 2]])] =
      forwardEmbedding (fun _ => Except.error "provider down")
        (PyVal.list [PyVal.list [PyVal.int 1], PyVal.list [PyVal.int 2]]) ∧
    (embeddings (fun _ => Option.none)
        ((fun _ => Except.error "provider down") : PyVal → Except String EmbedResponse)
        [("input", PyVal.list [PyVal.list [PyVal.int 1], PyVal.list [PyVal.int 2]])]).2 =
      [PyVal.list [PyVal.list [PyVal.int 1], PyVal.list [PyVal.int 2]]]) :=
  ⟨rfl, by simp, rfl,
   C3_decode_failure_falls_back_to_raw _ _ _ (PyVal.list [PyVal.int 2]) _ rfl (by simp) rfl⟩

/-- C4: a string-array input on which the provider succeeds and returns
one embedding vector per input string is answered HTTP 200 with
`object="list"`, the fixed model name, the pass-through usage, and a
`data` list of the same length as the input whose i-th entry is
`{"object": "embedding", "embedding": <i-th provider vector>,
"index": i}`, in provider order; the input strings form the one
downstream call. -/
theorem C4_response_shape_preserves_order
    (decode : PyVal → Option String)
    (provider : PyVal → Except String EmbedResponse)
    (ss : List String) (rest : List (String × PyVal)) (resp : EmbedResponse)
    (hne : ss ≠ [])
    (hp : provider (PyVal.list (ss.map PyVal.str)) = Except.ok resp)
    (hlen : resp.data.length = ss.length) :
    ∃ entries : List PyVal,
      embeddings decode provider (("input", PyVal.list (ss.map PyVal.str)) :: rest) =
        ((200, PyVal.dict
          [("object", PyVal.str "list"),
           ("model", PyVal.str embeddingModel),
           ("data", PyVal.list entries),
           ("usage", resp.usage.getD (PyVal.dict []))]),
         [PyVal.list (ss.map PyVal.str)]) ∧
      entries.length = ss.length ∧
      ∀ i : Nat, ∀ emb : PyVal, resp.data[i]? = some emb →
        entries[i]? = some (PyVal.dict
          [("object", PyVal.str "embedding"),
           ("embedding", emb),
           ("index", PyVal.int (Int.ofNat i))]) := by
  have h2 : truthy (PyVal.list (ss.map PyVal.str)) = true := by
    cases ss with
    | nil => exact absurd rfl hne
    | cons s t => rfl
  have h3 : is_token_input (PyVal.list (ss.map PyVal.str)) = false := by
    cases ss with
    | nil => exact absurd rfl hne
    | cons s t => rfl
  refine ⟨resp.data.enum.map formatEntry, ?_, ?_, ?_⟩
  · simp [embeddings, dictGetD, dictGet, h2, h3, forwardEmbedding, hp]
  · simp [List.length_map, List.enum_length, hlen]
  · intro i emb hemb
    simp [List.getElem?_map, List.getElem?_enum, hemb, formatEntry]

/-- C4 witness: input `["hello"]`, a provider answering one vector. -/
theorem C4_response_shape_preserves_order_witness :
    (["hello"] : List String) ≠ [] ∧
    ((fun _ => Except.ok { data := [PyVal.list [PyVal.float 1]], usage := Option.none }) :
        PyVal → Except String EmbedResponse)
      (PyVal.list (["hello"].map PyVal.str)) =
        Except.ok { data := [PyVal.list [PyVal.float 1]], usage := Option.none } ∧
    (∃ entries : List PyVal,
      embeddings (fun _ => Option.none)
          (fun _ => Except.ok { data := [PyVal.list [PyVal.float 1]], usage := Option.none })
          [("input", PyVal.list (["hello"].map PyVal.str))] =
        ((200, PyVal.dict
          [("object", PyVal.str "list"),
           ("model", PyVal.str embeddingModel),
           ("data", PyVal.list entries),
           ("usage", (Option.none : Option PyVal).getD (PyVal.dict []))]),
         [PyVal.list (["hello"].map PyVal.str)]) ∧
      entries.length = (["hello"] : List String).length ∧
      ∀ i : Nat, ∀ emb : PyVal,
        ([PyVal.list [PyVal.float 1]] : List PyVal)[i]? = some emb →
        entries[i]? = some (PyVal.dict
          [("object", PyVal.str "embedding"),
           ("embedding", emb),
           ("index", PyVal.int (Int.ofNat i))])) :=
  ⟨by simp, rfl,
   C4_response_shape_preserves_order (fun _ => Option.none)
     (fun _ => Except.ok { data := [PyVal.list [PyVal.float 1]], usage := Option.none })
     ["hello"] [] { data := [PyVal.list [PyVal.float 1]], usage := Option.none }
     (by simp) rfl rfl⟩

/-- C7: on the non-streaming success path (valid messages, stream
falsy), the one downstream params dict omits the `max_tokens` key
entirely when the request body has no `max_tokens`, and carries the
request's value unchanged when it is present and non-null. -/
theorem C7_max_tokens_omitted_or_forwarded
    (completion : PyVal → Except String PyVal)
    (payload : List (String × PyVal)) (msgs : List PyVal)
    (hm : dictGet payload "messages" = some (PyVal.list msgs))
    (hdicts : msgs.all isDict = true)
    (hclean : (msgs.filter msgRoleValid).isEmpty = false)
    (hstream : truthy (dictGetD payload "stream" (PyVal.bool false)) = false) :
    ∃ ps : List (String × PyVal),
      (chat_completions completion payload).2 = [PyVal.dict ps] ∧
      (dictGet payload "max_tokens" = Option.none →
        dictGet ps "max_tokens" = Option.none) ∧
      (∀ v : PyVal, dictGet payload "max_tokens" = some v → v ≠ PyVal.none →
        dictGet ps "max_tokens" = some v) := by
  have hne : msgs.isEmpty = false := by
    cases msgs with
    | nil => simp [List.filter_nil] at hclean
    | cons a l => rfl
  refine ⟨litellmParams payload (msgs.filter msgRoleValid), ?_, ?_, ?_⟩
  · have hstream2 : truthy ((dictGet payload "stream").getD (PyVal.bool false)) = false := by
      simpa [dictGetD] using hstream
    have htm : truthy (PyVal.list msgs) = true := by simp [truthy, hne]
    cases hc : completion (PyVal.dict (litellmParams payload (msgs.filter msgRoleValid))) with
    | error msg =>
      simp [chat_completions, dictGetD, hm, hdicts, hclean, htm, hstream2, hc]
    | ok r =>
      simp [chat_completions, dictGetD, hm, hdicts, hclean, htm, hstream2, hc]
  · intro h
    exact litellmParams_no_max_tokens payload _ (by simp [dictGetD, h])
  · intro v hv hvn
    exact litellmParams_max_tokens_forwarded payload _ (by simp [dictGetD, hv]) hvn

/-- C7 witness: one valid user message, no `stream`, no `max_tokens`
key in the body. -/
theorem C7_max_tokens_omitted_or_forwarded_witness :
    dictGet [("messages", PyVal.list [PyVal.dict [("role", PyVal.str "user")]])] "messages" =
      some (PyVal.list [PyVal.dict [("role", PyVal.str "user")]]) ∧
    truthy (dictGetD [("messages", PyVal.list [PyVal.dict [("role", PyVal.str "user")]])]
      "stream" (PyVal.bool false)) = false ∧
    (∃ ps : List (String × PyVal),
      (chat_completions (fun v => Except.ok v)
        [("messages", PyVal.list [PyVal.dict [("role", PyVal.str "user")]])]).2 =
        [PyVal.dict ps] ∧
      (dictGet [("messages", PyVal.list [PyVal.dict [("role", PyVal.str "user")]])]
          "max_tokens" = Option.none →
        dictGet ps "max_tokens" = Option.none) ∧
      (∀ v : PyVal,
        dictGet [("messages", PyVal.list [PyVal.dict [("role", PyVal.str "user")]])]
            "max_tokens" = some v →
        v ≠ PyVal.none → dictGet ps "max_tokens" = some v)) :=
  ⟨rfl, rfl,
   C7_max_tokens_omitted_or_forwarded (fun v => Except.ok v)
     [("messages", PyVal.list [PyVal.dict [("role", PyVal.str "user")]])]
     [PyVal.dict [("role", PyVal.str "user")]] rfl rfl rfl rfl⟩

/-- C8 counterexample: the body `{"messages": []}` has its `messages`
field present and its role-filtered list empty, yet the response body
is `{"error": "Messages are required"}` — not the invalid-roles error
the claim prescribes for every present `messages` whose filtered list
is empty. -/
theorem C8_counterexample :
    chat_completions (fun v => Except.ok v) [("messages", PyVal.list [])] =
      ((400, PyVal.dict [("error", PyVal.str "Messages are required")]), []) ∧
    PyVal.dict [("error", PyVal.str "Messages are required")] ≠
      PyVal.dict [("error", PyVal.str
        "Valid messages with roles (system, user, assistant, tool) are required")] := by
  refine ⟨rfl, ?_⟩
  intro h
  injection h with h1
  injection h1 with h2
  injection h2 with h3 h4
  injection h4 with h5
  exact absurd h5 (by decide)

/-- C8 (amended): when `messages` is present as a non-empty list of
objects, the handler filters it to the entries whose role is one of
system, user, assistant, tool; if the filtered list is empty it
answers HTTP 400 with the invalid-roles error and makes no downstream
call; otherwise, on non-streaming requests, exactly the filtered
messages — in their original relative order — are the `messages` of
the single downstream params dict.  (The unamended claim fails when
`messages` is present but empty: that takes the `Messages are
required` 400 instead, and when `stream` is truthy no downstream call
happens at all.) -/
theorem C8_role_filtering
    (completion : PyVal → Except String PyVal)
    (payload : List (String × PyVal)) (msgs : List PyVal)
    (hm : dictGet payload "messages" = some (PyVal.list msgs))
    (hne : msgs.isEmpty = false)
    (hdicts : msgs.all isDict = true) :
    ((msgs.filter msgRoleValid).isEmpty = true →
      chat_completions completion payload =
        ((400, PyVal.dict
          [("error", PyVal.str
            "Valid messages with roles (system, user, assistant, tool) are required")]),
         [])) ∧
    ((msgs.filter msgRoleValid).isEmpty = false →
      truthy (dictGetD payload "stream" (PyVal.bool false)) = false →
      ∃ ps : List (String × PyVal),
        (chat_completions completion payload).2 = [PyVal.dict ps] ∧
        dictGet ps "messages" = some (PyVal.list (msgs.filter msgRoleValid))) := by
  constructor
  · intro hroles
    simp [chat_completions, dictGetD, hm, hdicts, hroles, truthy, hne]
  · intro hclean hstream
    have hstream2 : truthy ((dictGet payload "stream").getD (PyVal.bool false)) = false := by
      simpa [dictGetD] using hstream
    have htm : truthy (PyVal.list msgs) = true := by simp [truthy, hne]
    refine ⟨litellmParams payload (msgs.filter msgRoleValid), ?_,
      litellmParams_messages _ _⟩
    cases hc : completion (PyVal.dict (litellmParams payload (msgs.filter msgRoleValid))) with
    | error msg =>
      simp [chat_completions, dictGetD, hm, hdicts, hclean, htm, hstream2, hc]
    | ok r =>
      simp [chat_completions, dictGetD, hm, hdicts, hclean, htm, hstream2, hc]

/-- C8 witness: one valid user message next to one bogus-role message;
only the user message survives the filter and is forwarded. -/
theorem C8_role_filtering_witness :
    dictGet [("messages", PyVal.list
        [PyVal.dict [("role", PyVal.str "bogus")], PyVal.dict [("role", PyVal.str "user")]])]
      "messages" = some (PyVal.list
        [PyVal.dict [("role", PyVal.str "bogus")], PyVal.dict [("role", PyVal.str "user")]]) ∧
    (([PyVal.dict [("role", PyVal.str "bogus")], PyVal.dict [("role", PyVal.str "user")]] :
        List PyVal).filter msgRoleValid).isEmpty = false ∧
    (((([PyVal.dict [("role", PyVal.str "bogus")], PyVal.dict [("role", PyVal.str "user")]] :
          List PyVal).filter msgRoleValid).isEmpty = true →
       chat_completions (fun v => Except.ok v)
         [("messages", PyVal.list
           [PyVal.dict [("role", PyVal.str "bogus")], PyVal.dict [("role", PyVal.str "user")]])] =
         ((400, PyVal.dict
           [("error", PyVal.str
             "Valid messages with roles (system, user, assistant, tool) are required")]),
          [])) ∧
     ((([PyVal.dict [("role", PyVal.str "bogus")], PyVal.dict [("role", PyVal.str "user")]] :
          List PyVal).filter msgRoleValid).isEmpty = false →
       truthy (dictGetD
         [("messages", PyVal.list
           [PyVal.dict [("role", PyVal.str "bogus")], PyVal.dict [("role", PyVal.str "user")]])]
         "stream" (PyVal.bool false)) = false →
       ∃ ps : List (String × PyVal),
         (chat_completions (fun v => Except.ok v)
           [("messages", PyVal.list
             [PyVal.dict [("role", PyVal.str "bogus")],
              PyVal.dict [("role", PyVal.str "user")]])]).2 = [PyVal.dict ps] ∧
         dictGet ps "messages" = some (PyVal.list
           (([PyVal.dict [("role", PyVal.str "bogus")],
              PyVal.dict [("role", PyVal.str "user")]] :
             List PyVal).filter msgRoleValid)))) :=
  ⟨rfl, rfl,
   C8_role_filtering (fun v => Except.ok v)
     [("messages", PyVal.list
       [PyVal.dict [("role", PyVal.str "bogus")], PyVal.dict [("role", PyVal.str "user")]])]
     [PyVal.dict [("role", PyVal.str "bogus")], PyVal.dict [("role", PyVal.str "user")]]
     rfl rfl rfl⟩
